import Mathlib

/-!
Shallow embedding of `src/jsonApi/factories/ApiDataFactory.ts` from the
`next-helpers` repository: a JSON:API request dispatcher with a
key-to-constructor registry, environment-dependent URL resolution,
cookie-based credential attachment, and rehydration of JSON:API payloads
into typed objects.

Modelling conventions:
  * JavaScript values appearing in payloads are modelled by the inductive
    `Json`; a possibly-`undefined` value is `Option Json` (with `none` for
    `undefined`).
  * The network transport (`axios`) is an oracle `HttpRequest → TransportResult`
    passed as a parameter; a thrown transport error is `TransportResult.failure`.
  * `_request` is modelled by `ApiDataFactory.request`, returning the
    outcome (`Except` for a thrown error vs a returned envelope) together
    with the list of HTTP requests handed to the transport, so that
    "no network I/O happened" is observable.
  * The pagination closures `nextPage`/`prevPage` are modelled by the
    dispatch descriptor they capture (`PageCall`); `runPage` gives the
    dispatch an invocation of the closure performs.
  * `console.error` logging is not modelled (it does not affect any value).
-/

namespace NextHelpers

/-- JSON values, as consumed from the wire and passed in `params`/`body`. -/
inductive Json where
  | null : Json
  | bool (b : Bool) : Json
  | num (n : Int) : Json
  | str (s : String) : Json
  | arr (elems : List Json) : Json
  | obj (fields : List (String × Json)) : Json

/-- First-match association-list lookup (JS objects have unique keys). -/
def assocLookup {β : Type _} : List (String × β) → String → Option β
  | [], _ => none
  | (k, v) :: rest, key => if k = key then some v else assocLookup rest key

/-- JS property access `j.k`: `none` models `undefined` (absent field or
non-object receiver-field access in the payloads this code touches). -/
def Json.get? : Json → String → Option Json
  | Json.obj fields, key => assocLookup fields key
  | _, _ => none

/-- JS truthiness of a JSON value. -/
def Json.truthy : Json → Bool
  | Json.null => false
  | Json.bool b => b
  | Json.num n => n != 0
  | Json.str s => !s.data.isEmpty
  | Json.arr _ => true
  | Json.obj _ => true

/-- JS truthiness of a possibly-`undefined` value. -/
def optTruthy : Option Json → Bool
  | none => false
  | some j => j.truthy

/-- JS string coercion used by `+` on a possibly-undefined env var:
`undefined + "x" = "undefinedx"`. -/
def jsStr (o : Option String) : String :=
  match o with
  | some s => s
  | none => "undefined"

/-- JS `s.length` (code-unit count; all strings involved are ASCII). -/
def jsLength (s : String) : Nat := s.data.length

/-- JS `s.startsWith(p)`. -/
def jsStartsWith (s p : String) : Bool := p.data.isPrefixOf s.data

/-- JS `s.substring(n)`: drop the first `n` characters. -/
def jsSubstring (s : String) (n : Nat) : String := String.mk (s.data.drop n)

/-- Characters `encodeURIComponent` leaves unescaped:
alphanumerics and `- _ . ! ~ * ' ( )`. -/
def uriUnreserved (c : Char) : Bool :=
  c.isAlphanum || c == Char.ofNat 45 || c == Char.ofNat 95 || c == Char.ofNat 46 ||
    c == Char.ofNat 33 || c == Char.ofNat 126 || c == Char.ofNat 42 ||
    c == Char.ofNat 39 || c == Char.ofNat 40 || c == Char.ofNat 41

/-- UTF-8 bytes of a character. -/
def utf8Bytes (c : Char) : List Nat :=
  let n := c.toNat
  if n < 128 then [n]
  else if n < 2048 then [192 + n / 64, 128 + n % 64]
  else if n < 65536 then [224 + n / 4096, 128 + (n / 64) % 64, 128 + n % 64]
  else [240 + n / 262144, 128 + (n / 4096) % 64, 128 + (n / 64) % 64, 128 + n % 64]

/-- Uppercase hexadecimal digit. -/
def hexDigitUpper (n : Nat) : Char :=
  if n < 10 then Char.ofNat (48 + n) else Char.ofNat (55 + n)

/-- Percent-encoding of one byte, `"%XY"` with uppercase hex. -/
def percentByte (b : Nat) : String :=
  String.mk [Char.ofNat 37, hexDigitUpper (b / 16), hexDigitUpper (b % 16)]

/-- JS `encodeURIComponent`. -/
def encodeURIComponent (s : String) : String :=
  String.join (s.data.map (fun c =>
    if uriUnreserved c then String.mk [c]
    else String.join ((utf8Bytes c).map percentByte)))

/-- Argument of `rehydrate`: `{ jsonApi: <node>, included: <pool> }`
(`jsonApi` may be `undefined` when the payload has no `data` field). -/
structure RehydrateInput where
  jsonApi : Option Json
  included : Json

/-- A registered constructor (`ApiDataInterface` class): `newInstance`
models `new factoryClass()`, and `rehydrate` models the mutating
`object.rehydrate(...)` as a state update returning the populated object. -/
structure ApiClass (α : Type) where
  newInstance : α
  generateApiUrl : Option Json → String
  rehydrate : α → RehydrateInput → α

/-- The dispatch a pagination closure performs when invoked:
`ApiDataFactory.get(classKey, { link })`. -/
structure PageCall where
  classKey : String
  link : Json

/-- Shape of `response.data`: a single instance or an ordered sequence. -/
inductive ResponseData (α : Type) where
  | list (items : List α) : ResponseData α
  | single (item : α) : ResponseData α

/-- The response envelope (`ApiResponseInterface`). -/
structure ApiResponse (α : Type) where
  ok : Bool
  response : Nat
  data : ResponseData α
  error : String
  self : Option Json := none
  next : Option Json := none
  prev : Option Json := none
  nextPage : Option PageCall := none
  prevPage : Option PageCall := none

/-- Execution environment: `isServer` models `typeof window === "undefined"`,
`cookies` models `cookieStore.get(name)?.value`, and the two URLs model
`process.env.NEXT_PUBLIC_API_URL` / `process.env.NEXT_PUBLIC_INTERNAL_API_URL`. -/
structure Env where
  isServer : Bool
  cookies : String → Option String
  apiUrl : Option String
  internalApiUrl : Option String

/-- The outbound HTTP request handed to the transport (`axiosConfig`). -/
structure HttpRequest where
  method : String
  url : String
  headers : List (String × String)
  data : Option Json

/-- Transport outcome: a thrown transport error (DNS failure, connection
reset, timeout) or a completed HTTP response. -/
inductive TransportResult where
  | failure : TransportResult
  | success (status : Nat) (statusText : String) (body : Json) : TransportResult

/-- The registry `ApiDataFactory.classMap` (a JS `Map`, insertion-ordered). -/
abbrev ClassMap (α : Type) : Type := List (String × ApiClass α)

/-- Registry lookup, `classMap.get(key)`. -/
def lookupClass {α : Type} (m : ClassMap α) (key : String) : Option (ApiClass α) :=
  assocLookup m key

/-- Registration, `registerObjectClass`: `if (!this.classMap.has(key)) this.classMap.set(key, c)`. -/
def registerObjectClass {α : Type} (m : ClassMap α) (key : String) (c : ApiClass α) :
    ClassMap α :=
  if (lookupClass m key).isSome then m else m ++ [(key, c)]

/-- Link selection: `let link = params?.link; if (!link) link = new factoryClass().generateApiUrl(params);`
Only string (or falsy) `link` values are modelled; a truthy non-string link
would make the JS code throw a `TypeError` at `link.startsWith` and is not
exercised by any claim. -/
def initialLink {α : Type} (cls : ApiClass α) (params : Option Json) : String :=
  match params.bind (fun p => p.get? "link") with
  | some (Json.str s) => if s.data.isEmpty then cls.generateApiUrl params else s
  | _ => cls.generateApiUrl params

/-- Session-token lookup: `cookieStore.get("next-auth.session-token")?.value ??
cookieStore.get("__Secure-next-auth.session-token")?.value ?? undefined`. -/
def serverToken (env : Env) : Option String :=
  match env.cookies "next-auth.session-token" with
  | some v => some v
  | none => env.cookies "__Secure-next-auth.session-token"

/-- The URL rewriting on `link`: the server-side branch prefixes a relative
link with `NEXT_PUBLIC_API_URL`; the browser branch strips the first
`NEXT_PUBLIC_API_URL.length` characters of an absolute link and routes
through `NEXT_PUBLIC_INTERNAL_API_URL + "?uri=" + encodeURIComponent(link)`. -/
def resolveUrl {α : Type} (cls : ApiClass α) (params : Option Json) (env : Env) : String :=
  let link := initialLink cls params
  if env.isServer then
    if jsStartsWith link "http" then link else jsStr env.apiUrl ++ link
  else
    let stripped :=
      if jsStartsWith link "http" then
        jsSubstring link (match env.apiUrl with | some u => jsLength u | none => 0)
      else link
    jsStr env.internalApiUrl ++ "?uri=" ++ encodeURIComponent stripped

/-- The headers of `axiosConfig`, with `Authorization` appended when
`if (token)` holds (token present and nonempty). -/
def requestHeaders (token : Option String) : List (String × String) :=
  let base := [("Accept-Encoding", "identity"), ("Accept", "application/json"),
    ("Content-Type", "application/json")]
  match token with
  | some t => if t.data.isEmpty then base else base ++ [("Authorization", "Bearer " ++ t)]
  | none => base

/-- The full `axiosConfig` request handed to the transport. The token is
looked up only in the server branch; `data` is the body when truthy
(`body ? JSON.stringify(body) : undefined`; serialization to text is not
modelled, no claim depends on it). -/
def buildRequest {α : Type} (cls : ApiClass α) (method : String)
    (params body : Option Json) (env : Env) : HttpRequest :=
  { method := method,
    url := resolveUrl cls params env,
    headers := requestHeaders (if env.isServer then serverToken env else none),
    data := if optTruthy body then body else none }

/-- The envelope as initialized before the transport call. -/
def defaultResponse {α : Type} : ApiResponse α :=
  { ok := true, response := 0, data := ResponseData.list [], error := "" }

/-- Side-loaded pool: `const included = jsonData.included ?? [];` (nullish coalescing). -/
def includedOf (jsonData : Json) : Json :=
  match jsonData.get? "included" with
  | none => Json.arr []
  | some Json.null => Json.arr []
  | some j => j

/-- Attach `self`/`next`/`prev` and the pagination closures when
`jsonData.links` is truthy. -/
def linksStep {α : Type} (classKey : String) (jsonData : Json) (r : ApiResponse α) :
    ApiResponse α :=
  match jsonData.get? "links" with
  | some links =>
    if links.truthy then
      let r1 := { r with self := links.get? "self" }
      let r2 :=
        if optTruthy (links.get? "next") then
          { r1 with
            next := links.get? "next"
            nextPage := some { classKey := classKey, link := (links.get? "next").getD Json.null } }
        else r1
      if optTruthy (links.get? "prev") then
        { r2 with
          prev := links.get? "prev"
          prevPage := some { classKey := classKey, link := (links.get? "prev").getD Json.null } }
      else r2
    else r
  | none => r

/-- Primary-data rehydration: an array yields one instance per element in
source order; anything else (including `undefined`) yields one instance. -/
def dataStep {α : Type} (cls : ApiClass α) (jsonData : Json) (r : ApiResponse α) :
    ApiResponse α :=
  let included := includedOf jsonData
  match jsonData.get? "data" with
  | some (Json.arr elems) =>
    { r with data := ResponseData.list (elems.map (fun el =>
        cls.rehydrate cls.newInstance { jsonApi := some el, included := included })) }
  | d =>
    { r with data :=
        ResponseData.single (cls.rehydrate cls.newInstance { jsonApi := d, included := included }) }

/-- Interpretation of the transport outcome into the returned envelope:
a thrown transport error is caught (and logged) and the initialized
envelope is returned unchanged; otherwise the status, error text, 204
short-circuit, links and primary data are processed in source order. -/
def interpret {α : Type} (cls : ApiClass α) (classKey : String) :
    TransportResult → ApiResponse α
  | TransportResult.failure => defaultResponse
  | TransportResult.success status statusText jsonData =>
    let ok : Bool := decide (200 ≤ status) && decide (status < 300)
    let r0 : ApiResponse α := { defaultResponse with ok := ok, response := status }
    if !ok then { r0 with error := statusText }
    else if status = 204 then r0
    else dataStep cls jsonData (linksStep classKey jsonData r0)

/-- Dispatch, `ApiDataFactory._request`: resolves the registry key (throwing when
absent, before any I/O), builds the request, runs the transport and
interprets the outcome. The second component is the list of requests
handed to the transport. -/
def ApiDataFactory.request {α : Type} (classMap : ClassMap α)
    (method classKey : String) (params body : Option Json) (env : Env)
    (transport : HttpRequest → TransportResult) :
    Except String (ApiResponse α) × List HttpRequest :=
  match lookupClass classMap classKey with
  | none => (Except.error ("Class not registered for key: " ++ classKey), [])
  | some cls =>
    let req := buildRequest cls method params body env
    (Except.ok (interpret cls classKey (transport req)), [req])

/-- Verb `get`. -/
def ApiDataFactory.get {α : Type} (classMap : ClassMap α) (classKey : String)
    (params : Option Json) (env : Env) (transport : HttpRequest → TransportResult) :
    Except String (ApiResponse α) × List HttpRequest :=
  ApiDataFactory.request classMap "GET" classKey params none env transport

/-- Verb `post`: `if (!body) body = {};`. -/
def ApiDataFactory.post {α : Type} (classMap : ClassMap α) (classKey : String)
    (params body : Option Json) (env : Env) (transport : HttpRequest → TransportResult) :
    Except String (ApiResponse α) × List HttpRequest :=
  let body := if optTruthy body then body else some (Json.obj [])
  ApiDataFactory.request classMap "POST" classKey params body env transport

/-- Verb `put`. -/
def ApiDataFactory.put {α : Type} (classMap : ClassMap α) (classKey : String)
    (params body : Option Json) (env : Env) (transport : HttpRequest → TransportResult) :
    Except String (ApiResponse α) × List HttpRequest :=
  ApiDataFactory.request classMap "PUT" classKey params body env transport

/-- Verb `patch`. -/
def ApiDataFactory.patch {α : Type} (classMap : ClassMap α) (classKey : String)
    (params body : Option Json) (env : Env) (transport : HttpRequest → TransportResult) :
    Except String (ApiResponse α) × List HttpRequest :=
  ApiDataFactory.request classMap "PATCH" classKey params body env transport

/-- Verb `delete`. -/
def ApiDataFactory.delete {α : Type} (classMap : ClassMap α) (classKey : String)
    (params : Option Json) (env : Env) (transport : HttpRequest → TransportResult) :
    Except String (ApiResponse α) × List HttpRequest :=
  ApiDataFactory.request classMap "DELETE" classKey params none env transport

/-- Invoking a pagination closure:
`async () => ApiDataFactory.get(classKey, { link })`. -/
def runPage {α : Type} (classMap : ClassMap α) (p : PageCall) (env : Env)
    (transport : HttpRequest → TransportResult) :
    Except String (ApiResponse α) × List HttpRequest :=
  ApiDataFactory.get classMap p.classKey (some (Json.obj [("link", p.link)])) env transport

/-! ## Helper lemmas -/

theorem assocLookup_append_of_none {β : Type _} {l1 : List (String × β)}
    (l2 : List (String × β)) (key : String) (h : assocLookup l1 key = none) :
    assocLookup (l1 ++ l2) key = assocLookup l2 key := by
  induction l1 with
  | nil => rfl
  | cons p rest ih =>
    obtain ⟨k, v⟩ := p
    rw [List.cons_append]
    by_cases hk : k = key
    · simp [assocLookup, hk] at h
    · simp only [assocLookup, hk, if_false] at h ⊢
      exact ih h

theorem assocLookup_singleton_self {β : Type _} (key : String) (v : β) :
    assocLookup [(key, v)] key = some v := by
  unfold assocLookup
  simp

/-- Unfolding of a dispatch on a registered key: the transport is consulted
exactly once, on the built request, and the interpreted envelope is returned. -/
theorem request_eq_of_lookup {α : Type} {classMap : ClassMap α} {classKey : String}
    {cls : ApiClass α} (hreg : lookupClass classMap classKey = some cls)
    (method : String) (params body : Option Json) (env : Env)
    (transport : HttpRequest → TransportResult) :
    ApiDataFactory.request classMap method classKey params body env transport =
      (Except.ok (interpret cls classKey (transport (buildRequest cls method params body env))),
       [buildRequest cls method params body env]) := by
  unfold ApiDataFactory.request
  rw [hreg]

/-! ## Concrete fixtures used by witnesses and counterexamples -/

/-- A concrete resource class over `α := List RehydrateInput`: a fresh
instance is the empty record and `rehydrate` appends its argument, so the
rehydration calls an instance received are fully observable. -/
def wCls : ApiClass (List RehydrateInput) :=
  { newInstance := []
    generateApiUrl := fun _ => "/widgets"
    rehydrate := fun a i => a ++ [i] }

/-- A second, different concrete class (used for duplicate registration). -/
def wClsB : ApiClass (List RehydrateInput) :=
  { newInstance := [{ jsonApi := none, included := Json.null }]
    generateApiUrl := fun _ => "/gadgets"
    rehydrate := fun a _ => a }

/-- A registry holding `wCls` under the key `"widget"`. -/
def wMap : ClassMap (List RehydrateInput) := [("widget", wCls)]

/-- A server-side environment without cookies. -/
def wEnvServer : Env :=
  { isServer := true
    cookies := fun _ => none
    apiUrl := some "http://api.example"
    internalApiUrl := some "/proxy" }

/-- A transport on which every request fails at the transport level. -/
def wFailTransport : HttpRequest → TransportResult := fun _ => TransportResult.failure

/-! ## Claims -/

/-- C5: for every key and constructor, resolving the key after registering
the constructor under it (on a registry where the key is absent) returns
exactly that constructor, and a second registration under the same key with
a different constructor leaves the registry unchanged — first writer wins
and no error is raised (`registerObjectClass` is total). -/
theorem C5_registry_first_writer {α : Type} (m : ClassMap α) (key : String)
    (c c2 : ApiClass α) (habs : lookupClass m key = none) :
    lookupClass (registerObjectClass m key c) key = some c ∧
    registerObjectClass (registerObjectClass m key c) key c2 =
      registerObjectClass m key c := by
  have hreg : registerObjectClass m key c = m ++ [(key, c)] := by
    unfold registerObjectClass
    rw [habs]
    rfl
  have hlook : lookupClass (m ++ [(key, c)]) key = some c := by
    unfold lookupClass at habs ⊢
    rw [assocLookup_append_of_none _ key habs, assocLookup_singleton_self]
  constructor
  · rw [hreg]; exact hlook
  · rw [hreg]
    unfold registerObjectClass
    rw [show lookupClass (m ++ [(key, c)]) key = some c from hlook]
    rfl

/-- Witness for C5 at a concrete registry, key and constructors. -/
theorem C5_registry_first_writer_witness :
    lookupClass (registerObjectClass ([] : ClassMap (List RehydrateInput)) "widget" wCls)
        "widget" = some wCls ∧
    registerObjectClass
        (registerObjectClass ([] : ClassMap (List RehydrateInput)) "widget" wCls)
        "widget" wClsB =
      registerObjectClass ([] : ClassMap (List RehydrateInput)) "widget" wCls :=
  C5_registry_first_writer [] "widget" wCls wClsB rfl

/-- C6: a dispatch on a key with no registered constructor throws the
`Class not registered for key: <key>` error and performs no network I/O —
the returned request log is empty, so the transport was never invoked. -/
theorem C6_unregistered_key_aborts {α : Type} (classMap : ClassMap α)
    (method classKey : String) (params body : Option Json) (env : Env)
    (transport : HttpRequest → TransportResult)
    (habs : lookupClass classMap classKey = none) :
    ApiDataFactory.request classMap method classKey params body env transport =
      (Except.error ("Class not registered for key: " ++ classKey), []) := by
  unfold ApiDataFactory.request
  rw [habs]

/-- Witness for C6 on the empty registry. -/
theorem C6_unregistered_key_aborts_witness :
    ApiDataFactory.request ([] : ClassMap (List RehydrateInput)) "GET" "missing"
        none none wEnvServer wFailTransport =
      (Except.error ("Class not registered for key: " ++ "missing"), []) :=
  C6_unregistered_key_aborts [] "GET" "missing" none none wEnvServer wFailTransport rfl

/-- C1: when the network transport itself fails (DNS failure, connection
reset, timeout — a thrown transport error), the dispatcher catches the
failure and returns the envelope exactly as initialized: `ok = true`,
`response = 0`, `data = []`, `error = ""`; the failure is not surfaced
through `ok` or `error`. (The accompanying `console.error` log has no
observable effect on the returned value and is not modelled.) -/
theorem C1_transport_failure_default_envelope {α : Type} (classMap : ClassMap α)
    (method classKey : String) (params body : Option Json) (env : Env)
    (transport : HttpRequest → TransportResult) (cls : ApiClass α)
    (hreg : lookupClass classMap classKey = some cls)
    (hfail : ∀ r, transport r = TransportResult.failure) :
    (ApiDataFactory.request classMap method classKey params body env transport).1 =
      Except.ok { ok := true, response := 0, data := ResponseData.list [], error := "" } := by
  rw [request_eq_of_lookup hreg, hfail]
  rfl

/-- Witness for C1 at a concrete registry, environment and failing transport. -/
theorem C1_transport_failure_default_envelope_witness :
    (ApiDataFactory.request wMap "GET" "widget" none none wEnvServer wFailTransport).1 =
      Except.ok
        { ok := true, response := 0, data := ResponseData.list ([] : List (List RehydrateInput)), error := "" } :=
  C1_transport_failure_default_envelope wMap "GET" "widget" none none wEnvServer
    wFailTransport wCls rfl (fun _ => rfl)

/-- The error body of the C2 scenario: `{ ok: false, message: "not found" }`. -/
def wBody404 : Json := Json.obj [("ok", Json.bool false), ("message", Json.str "not found")]

/-- Counterexample to C2 as stated: on a 404 response with status text
`"Not Found"` and body `{ ok: false, message: "not found" }`, the TypeScript
source sets `error` to the response's status text, not to the body's
`message` field — the returned `error` is `"Not Found"`, not `"not found"`.
(The `message`-based convention appears only in the stale build artifact
`dist/jsonApi/factories/ApiDataFactory.js`, which reads `apiResponse.data.ok`
and `apiResponse.data.message`; the current source never consults the body
on error responses.) -/
theorem C2_counterexample_statusText_not_message :
    ((ApiDataFactory.request wMap "GET" "widget" none none wEnvServer
        (fun _ => TransportResult.success 404 "Not Found" wBody404)).1 =
      Except.ok
        { ok := false, response := 404, data := ResponseData.list ([] : List (List RehydrateInput)), error := "Not Found" })
    ∧ "Not Found" ≠ "not found" :=
  ⟨rfl, by decide⟩

/-- C2 (amended): for every response whose HTTP status is not in `[200, 300)`
and whose body is `{ ok: false, message: "not found" }`, the returned
envelope has `ok = false`, `error` equal to the response's STATUS TEXT
(the body's `message` field is not consulted), and `data` the empty
sequence; no rehydration method is invoked before the envelope is returned
(the theorem holds for every registered class, so the result is independent
of its `rehydrate` method, and `data` stays the initial empty list). -/
theorem C2_non2xx_error_is_statusText {α : Type} (classMap : ClassMap α)
    (method classKey : String) (params body : Option Json) (env : Env)
    (transport : HttpRequest → TransportResult) (cls : ApiClass α)
    (status : Nat) (statusText : String)
    (hreg : lookupClass classMap classKey = some cls)
    (hresp : ∀ r, transport r = TransportResult.success status statusText
      (Json.obj [("ok", Json.bool false), ("message", Json.str "not found")]))
    (hbad : ¬ (200 ≤ status ∧ status < 300)) :
    (ApiDataFactory.request classMap method classKey params body env transport).1 =
      Except.ok
        { ok := false, response := status, data := ResponseData.list [], error := statusText } := by
  rw [request_eq_of_lookup hreg, hresp]
  have hok : (decide (200 ≤ status) && decide (status < 300)) = false := by
    by_cases h1 : 200 ≤ status
    · by_cases h2 : status < 300
      · exact absurd ⟨h1, h2⟩ hbad
      · simp [h2]
    · simp [h1]
  simp only [interpret]
  rw [hok]
  rfl

/-- Witness for the amended C2 at a concrete 404 dispatch. -/
theorem C2_non2xx_error_is_statusText_witness :
    (ApiDataFactory.request wMap "GET" "widget" none none wEnvServer
        (fun _ => TransportResult.success 404 "Not Found" wBody404)).1 =
      Except.ok
        { ok := false, response := 404, data := ResponseData.list ([] : List (List RehydrateInput)), error := "Not Found" } :=
  C2_non2xx_error_is_statusText wMap "GET" "widget" none none wEnvServer
    (fun _ => TransportResult.success 404 "Not Found" wBody404) wCls 404 "Not Found"
    rfl (fun _ => rfl) (by decide)

/-- A server-side environment whose preferred session cookie is present
with the empty string as its value. -/
def wEnvEmptyTok : Env :=
  { isServer := true
    cookies := fun n => if n = "next-auth.session-token" then some "" else none
    apiUrl := some "http://api.example"
    internalApiUrl := some "/proxy" }

/-- A server-side environment whose preferred session cookie holds `"tok"`. -/
def wEnvTok : Env :=
  { isServer := true
    cookies := fun n => if n = "next-auth.session-token" then some "tok" else none
    apiUrl := some "http://api.example"
    internalApiUrl := some "/proxy" }

/-- Counterexample to C3 as stated: in a server-side dispatch where the
preferred cookie `next-auth.session-token` is present with value `""`,
a token IS found (`serverToken` yields `some ""`), yet the outgoing request
carries no `Authorization` header at all — `if (token)` rejects the empty
string, so "whenever a token is found the outgoing request carries
`Authorization: Bearer <token>`" fails at this input. -/
theorem C3_counterexample_empty_token_not_attached :
    serverToken wEnvEmptyTok = some "" ∧
    (ApiDataFactory.request wMap "GET" "widget" none none wEnvEmptyTok
        wFailTransport).2.map (fun r => r.headers) =
      [[("Accept-Encoding", "identity"), ("Accept", "application/json"),
        ("Content-Type", "application/json")]] :=
  ⟨rfl, rfl⟩

/-- C3 (amended): in every server-side dispatch the session token is read
preferring the cookie `next-auth.session-token` (its value is used whenever
that cookie is present) and falling back to `__Secure-next-auth.session-token`
when it is absent; and whenever a NONEMPTY token is found, the single
outgoing request carries the header `Authorization: Bearer <token>`
(appended to the three base headers). A token that is the empty string is
found but not attached, which is the one divergence from the claim as
stated. -/
theorem C3_server_bearer_token {α : Type} (classMap : ClassMap α)
    (method classKey : String) (params body : Option Json) (env : Env)
    (transport : HttpRequest → TransportResult) (cls : ApiClass α)
    (hreg : lookupClass classMap classKey = some cls)
    (hsrv : env.isServer = true) :
    ((∀ v, env.cookies "next-auth.session-token" = some v → serverToken env = some v) ∧
      (env.cookies "next-auth.session-token" = none →
        serverToken env = env.cookies "__Secure-next-auth.session-token")) ∧
    (∀ t, serverToken env = some t → t.data.isEmpty = false →
      (ApiDataFactory.request classMap method classKey params body env
          transport).2.map (fun r => r.headers) =
        [[("Accept-Encoding", "identity"), ("Accept", "application/json"),
          ("Content-Type", "application/json"), ("Authorization", "Bearer " ++ t)]]) := by
  constructor
  · constructor
    · intro v hv
      unfold serverToken
      rw [hv]
    · intro hnone
      unfold serverToken
      rw [hnone]
  · intro t ht hne
    rw [request_eq_of_lookup hreg]
    unfold buildRequest requestHeaders
    rw [hsrv]
    simp only [if_true]
    rw [ht]
    simp [hne]

/-- Witness for the amended C3: with cookie value `"tok"`, the dispatched
request carries `Authorization: Bearer tok`. -/
theorem C3_server_bearer_token_witness :
    (ApiDataFactory.request wMap "GET" "widget" none none wEnvTok
        wFailTransport).2.map (fun r => r.headers) =
      [[("Accept-Encoding", "identity"), ("Accept", "application/json"),
        ("Content-Type", "application/json"), ("Authorization", "Bearer " ++ "tok")]] :=
  (C3_server_bearer_token wMap "GET" "widget" none none wEnvTok wFailTransport wCls
    rfl rfl).2 "tok" rfl rfl

/-! ## String helper lemmas for URL resolution -/

theorem jsStartsWith_append {a p : String} (b : String)
    (h : jsStartsWith a p = true) : jsStartsWith (a ++ b) p = true := by
  unfold jsStartsWith at h ⊢
  rw [String.data_append]
  rw [List.isPrefixOf_iff_prefix] at h ⊢
  exact h.trans (List.prefix_append _ _)

theorem jsSubstring_append (a b : String) : jsSubstring (a ++ b) (jsLength a) = b := by
  unfold jsSubstring jsLength
  rw [String.data_append, List.drop_left]

theorem jsSubstring_zero (s : String) : jsSubstring s 0 = s := by
  unfold jsSubstring
  rw [List.drop_zero]

theorem isEmpty_append_right {a b : String} (hb : b.data.isEmpty = false) :
    (a ++ b).data.isEmpty = false := by
  rw [String.data_append]
  cases hd : b.data with
  | nil => rw [hd] at hb; exact absurd hb (by decide)
  | cons c cs =>
    cases a.data <;> rfl

theorem nonEmpty_of_startsWith_http {l : String} (h : jsStartsWith l "http" = true) :
    l.data.isEmpty = false := by
  cases hd : l.data with
  | nil =>
    unfold jsStartsWith at h
    rw [hd] at h
    exact absurd h (by decide)
  | cons c cs => rfl

theorem initialLink_link_param {α : Type} (cls : ApiClass α) (s : String)
    (hne : s.data.isEmpty = false) :
    initialLink cls (some (Json.obj [("link", Json.str s)])) = s := by
  unfold initialLink
  simp [Json.get?, assocLookup, hne]

/-! ## URL-resolution claims -/

/-- A browser-context environment with the public API base URL set. -/
def wEnvBrowser : Env :=
  { isServer := false
    cookies := fun _ => none
    apiUrl := some "http://api.example"
    internalApiUrl := some "/proxy" }

/-- C4: in a browser-context dispatch whose `link` parameter is the
absolute URL `<publicApiBaseUrl>/widgets/1` (with the base URL set and
itself starting with `"http"`), the single URL handed to the transport is
`<internalProxyUrl>?uri=%2Fwidgets%2F1`: the base-URL prefix is stripped
by length, the remaining relative path is URL-encoded, and the result is
passed as the `uri` query parameter of the internal proxy endpoint. -/
theorem C4_browser_proxy_url {α : Type} (classMap : ClassMap α) (classKey : String)
    (body : Option Json) (env : Env) (transport : HttpRequest → TransportResult)
    (cls : ApiClass α) (base internal : String)
    (hreg : lookupClass classMap classKey = some cls)
    (hbrowser : env.isServer = false)
    (hapi : env.apiUrl = some base)
    (hint : env.internalApiUrl = some internal)
    (hhttp : jsStartsWith base "http" = true) :
    (ApiDataFactory.request classMap "GET" classKey
        (some (Json.obj [("link", Json.str (base ++ "/widgets/1"))])) body env
        transport).2.map (fun r => r.url) =
      [internal ++ "?uri=%2Fwidgets%2F1"] := by
  rw [request_eq_of_lookup hreg]
  have hil : initialLink cls (some (Json.obj [("link", Json.str (base ++ "/widgets/1"))])) =
      base ++ "/widgets/1" :=
    initialLink_link_param cls _ (isEmpty_append_right (by decide))
  have hstart : jsStartsWith (base ++ "/widgets/1") "http" = true :=
    jsStartsWith_append _ hhttp
  simp only [List.map, buildRequest, resolveUrl, hil, hbrowser, hapi, hint, hstart,
    Bool.false_eq_true, if_false, if_true, jsStr]
  rw [jsSubstring_append]
  have henc : encodeURIComponent "/widgets/1" = "%2Fwidgets%2F1" := by decide
  rw [henc, String.append_assoc]
  rfl

/-- Witness for C4 at a concrete browser environment. -/
theorem C4_browser_proxy_url_witness :
    (ApiDataFactory.request wMap "GET" "widget"
        (some (Json.obj [("link", Json.str ("http://api.example" ++ "/widgets/1"))]))
        none wEnvBrowser wFailTransport).2.map (fun r => r.url) =
      ["/proxy" ++ "?uri=%2Fwidgets%2F1"] :=
  C4_browser_proxy_url wMap "widget" none wEnvBrowser wFailTransport wCls
    "http://api.example" "/proxy" rfl rfl rfl rfl (by decide)

/-- C9: in a server-side dispatch with the public API base URL configured,
a relative `link` (one not starting with `"http"`) is resolved by
prefixing the base URL — the URL handed to the transport is
`<publicApiBaseUrl><link>` — while an already-absolute link (starting
with `"http"`) is handed to the transport unchanged. -/
theorem C9_server_url_resolution {α : Type} (classMap : ClassMap α)
    (method classKey : String) (body : Option Json) (env : Env)
    (transport : HttpRequest → TransportResult) (cls : ApiClass α) (base : String)
    (hreg : lookupClass classMap classKey = some cls)
    (hsrv : env.isServer = true) (hapi : env.apiUrl = some base) :
    (∀ l : String, l.data.isEmpty = false → jsStartsWith l "http" = false →
      (ApiDataFactory.request classMap method classKey
          (some (Json.obj [("link", Json.str l)])) body env transport).2.map
        (fun r => r.url) = [base ++ l]) ∧
    (∀ l : String, jsStartsWith l "http" = true →
      (ApiDataFactory.request classMap method classKey
          (some (Json.obj [("link", Json.str l)])) body env transport).2.map
        (fun r => r.url) = [l]) := by
  constructor
  · intro l hne hrel
    rw [request_eq_of_lookup hreg]
    have hil := initialLink_link_param cls l hne
    simp only [List.map, buildRequest, resolveUrl, hil, hsrv, hrel, hapi,
      Bool.false_eq_true, if_false, if_true, jsStr]
  · intro l habs
    rw [request_eq_of_lookup hreg]
    have hil := initialLink_link_param cls l (nonEmpty_of_startsWith_http habs)
    simp only [List.map, buildRequest, resolveUrl, hil, hsrv, habs, if_true]

/-- Witness for C9: both the relative-path branch and the absolute-link
branch at concrete inputs. -/
theorem C9_server_url_resolution_witness :
    ((ApiDataFactory.request wMap "GET" "widget"
        (some (Json.obj [("link", Json.str "/widgets/1")])) none wEnvServer
        wFailTransport).2.map (fun r => r.url) =
      ["http://api.example" ++ "/widgets/1"]) ∧
    ((ApiDataFactory.request wMap "GET" "widget"
        (some (Json.obj [("link", Json.str "http://other.example/z")])) none wEnvServer
        wFailTransport).2.map (fun r => r.url) =
      ["http://other.example/z"]) :=
  ⟨(C9_server_url_resolution wMap "GET" "widget" none wEnvServer wFailTransport wCls
      "http://api.example" rfl rfl rfl).1 "/widgets/1" (by decide) (by decide),
    (C9_server_url_resolution wMap "GET" "widget" none wEnvServer wFailTransport wCls
      "http://api.example" rfl rfl rfl).2 "http://other.example/z" (by decide)⟩

/-- C10: in a browser-context dispatch, every `link` starting with `"http"`
has exactly the first `|publicApiBaseUrl|` characters removed (zero when
the base URL is unset) before being URL-encoded into the proxy URL — with
no check that the link actually begins with the public API base URL, so an
absolute link to any other host is truncated by that fixed length rather
than passed through or rejected. -/
theorem C10_browser_length_strip {α : Type} (classMap : ClassMap α)
    (method classKey : String) (body : Option Json) (env : Env)
    (transport : HttpRequest → TransportResult) (cls : ApiClass α)
    (hreg : lookupClass classMap classKey = some cls)
    (hbrowser : env.isServer = false) :
    (∀ l : String, jsStartsWith l "http" = true →
      (ApiDataFactory.request classMap method classKey
          (some (Json.obj [("link", Json.str l)])) body env transport).2.map
        (fun r => r.url) =
      [jsStr env.internalApiUrl ++ "?uri=" ++
        encodeURIComponent (jsSubstring l
          (match env.apiUrl with | some u => jsLength u | none => 0))]) ∧
    (env.apiUrl = none → ∀ l : String, jsStartsWith l "http" = true →
      (ApiDataFactory.request classMap method classKey
          (some (Json.obj [("link", Json.str l)])) body env transport).2.map
        (fun r => r.url) =
      [jsStr env.internalApiUrl ++ "?uri=" ++ encodeURIComponent l]) := by
  have main : ∀ l : String, jsStartsWith l "http" = true →
      (ApiDataFactory.request classMap method classKey
          (some (Json.obj [("link", Json.str l)])) body env transport).2.map
        (fun r => r.url) =
      [jsStr env.internalApiUrl ++ "?uri=" ++
        encodeURIComponent (jsSubstring l
          (match env.apiUrl with | some u => jsLength u | none => 0))] := by
    intro l habs
    rw [request_eq_of_lookup hreg]
    have hil := initialLink_link_param cls l (nonEmpty_of_startsWith_http habs)
    simp only [List.map, buildRequest, resolveUrl, hil, hbrowser, habs,
      Bool.false_eq_true, if_false, if_true]
  constructor
  · exact main
  · intro hnone l habs
    rw [main l habs, hnone, jsSubstring_zero]

/-- A browser-context environment whose public API base URL
(`http://api.local`, 16 characters) does not prefix the foreign link used
in the C10 witness. -/
def wEnvBrowserLocal : Env :=
  { isServer := false
    cookies := fun _ => none
    apiUrl := some "http://api.local"
    internalApiUrl := some "/proxy" }

/-- Witness for C10: the absolute link `https://evil.example/secret`,
which does not start with the configured base URL `http://api.local`,
still loses its first 16 characters and is proxied as the garbled
relative path `mple/secret`. -/
theorem C10_browser_length_strip_witness :
    (ApiDataFactory.request wMap "GET" "widget"
        (some (Json.obj [("link", Json.str "https://evil.example/secret")])) none
        wEnvBrowserLocal wFailTransport).2.map (fun r => r.url) =
      ["/proxy?uri=mple%2Fsecret"] := by
  have h := (C10_browser_length_strip wMap "GET" "widget" none wEnvBrowserLocal
    wFailTransport wCls rfl rfl).1 "https://evil.example/secret" (by decide)
  exact h.trans (by decide)

/-! ## Helper lemmas for response interpretation -/

theorem optTruthy_some (j : Json) : optTruthy (some j) = j.truthy := rfl

theorem optTruthy_none : optTruthy none = false := rfl

theorem truthy_of_get?_some {j : Json} {key : String} {v : Json}
    (h : j.get? key = some v) : j.truthy = true := by
  cases j with
  | null => exact absurd h (by simp [Json.get?])
  | bool b => exact absurd h (by simp [Json.get?])
  | num n => exact absurd h (by simp [Json.get?])
  | str s => exact absurd h (by simp [Json.get?])
  | arr elems => exact absurd h (by simp [Json.get?])
  | obj fields => rfl

theorem interpret_success_2xx {α : Type} (cls : ApiClass α) (classKey : String)
    (status : Nat) (statusText : String) (jsonData : Json)
    (h2xx : 200 ≤ status ∧ status < 300) (h204 : status ≠ 204) :
    interpret cls classKey (TransportResult.success status statusText jsonData) =
      dataStep cls jsonData (linksStep classKey jsonData
        { defaultResponse with ok := true, response := status }) := by
  have hok : (decide (200 ≤ status) && decide (status < 300)) = true := by
    simp [h2xx.1, h2xx.2]
  simp only [interpret]
  rw [hok]
  simp [h204]

theorem dataStep_data_arr {α : Type} (cls : ApiClass α) (jsonData : Json)
    (elems : List Json) (r : ApiResponse α)
    (hdata : jsonData.get? "data" = some (Json.arr elems)) :
    (dataStep cls jsonData r).data = ResponseData.list (elems.map (fun el =>
      cls.rehydrate cls.newInstance { jsonApi := some el, included := includedOf jsonData })) := by
  unfold dataStep
  rw [hdata]

theorem dataStep_nextPage {α : Type} (cls : ApiClass α) (jsonData : Json)
    (r : ApiResponse α) : (dataStep cls jsonData r).nextPage = r.nextPage := by
  unfold dataStep
  split <;> rfl

theorem dataStep_prevPage {α : Type} (cls : ApiClass α) (jsonData : Json)
    (r : ApiResponse α) : (dataStep cls jsonData r).prevPage = r.prevPage := by
  unfold dataStep
  split <;> rfl

theorem linksStep_nextPage_some {α : Type} (classKey : String) (jsonData links nx : Json)
    (r : ApiResponse α) (hl : jsonData.get? "links" = some links)
    (hn : links.get? "next" = some nx) (ht : nx.truthy = true) :
    (linksStep classKey jsonData r).nextPage =
      some { classKey := classKey, link := nx } := by
  have htru := truthy_of_get?_some hn
  by_cases hp : optTruthy (links.get? "prev") = true <;>
    simp [linksStep, hl, htru, hp, hn, optTruthy_some, ht]

theorem linksStep_nextPage_none {α : Type} (classKey : String) (jsonData : Json)
    (r : ApiResponse α)
    (h : optTruthy ((jsonData.get? "links").bind (fun l => l.get? "next")) = false) :
    (linksStep classKey jsonData r).nextPage = r.nextPage := by
  cases hl : jsonData.get? "links" with
  | none => simp [linksStep, hl]
  | some links =>
    rw [hl] at h
    have h2 : optTruthy (links.get? "next") = false := h
    by_cases htru : links.truthy = true
    · by_cases hp : optTruthy (links.get? "prev") = true <;>
        simp [linksStep, hl, htru, hp, h2]
    · simp [linksStep, hl, htru]

theorem linksStep_prevPage_some {α : Type} (classKey : String) (jsonData links pv : Json)
    (r : ApiResponse α) (hl : jsonData.get? "links" = some links)
    (hn : links.get? "prev" = some pv) (ht : pv.truthy = true) :
    (linksStep classKey jsonData r).prevPage =
      some { classKey := classKey, link := pv } := by
  have htru := truthy_of_get?_some hn
  by_cases hp : optTruthy (links.get? "next") = true <;>
    simp [linksStep, hl, htru, hp, hn, optTruthy_some, ht]

theorem linksStep_prevPage_none {α : Type} (classKey : String) (jsonData : Json)
    (r : ApiResponse α)
    (h : optTruthy ((jsonData.get? "links").bind (fun l => l.get? "prev")) = false) :
    (linksStep classKey jsonData r).prevPage = r.prevPage := by
  cases hl : jsonData.get? "links" with
  | none => simp [linksStep, hl]
  | some links =>
    rw [hl] at h
    have h2 : optTruthy (links.get? "prev") = false := h
    by_cases htru : links.truthy = true
    · by_cases hp : optTruthy (links.get? "next") = true <;>
        simp [linksStep, hl, htru, hp, h2]
    · simp [linksStep, hl, htru]

/-! ## Rehydration and pagination claims -/

/-- C7: for every 2xx (non-204) response whose body's `data` field is an
array of n elements, the returned envelope's `data` is the ordered sequence
of exactly the n instances obtained, one per element in source order, by
constructing a fresh instance of the class registered under the dispatch's
class key (never one inferred from the payload's `type` field — the
formula uses only the registered `cls`) and rehydrating it with
`{ jsonApi: element, included }`. -/
theorem C7_array_rehydration {α : Type} (classMap : ClassMap α)
    (method classKey : String) (params body : Option Json) (env : Env)
    (transport : HttpRequest → TransportResult) (cls : ApiClass α)
    (status : Nat) (statusText : String) (jsonData : Json) (elems : List Json)
    (hreg : lookupClass classMap classKey = some cls)
    (hresp : ∀ r, transport r = TransportResult.success status statusText jsonData)
    (h2xx : 200 ≤ status ∧ status < 300) (h204 : status ≠ 204)
    (hdata : jsonData.get? "data" = some (Json.arr elems)) :
    ((ApiDataFactory.request classMap method classKey params body env
        transport).1).map (fun e => e.data) =
      Except.ok (ResponseData.list (elems.map (fun el =>
        cls.rehydrate cls.newInstance
          { jsonApi := some el, included := includedOf jsonData }))) := by
  rw [request_eq_of_lookup hreg, hresp]
  simp only [Except.map]
  rw [interpret_success_2xx cls classKey status statusText jsonData h2xx h204,
    dataStep_data_arr cls jsonData elems _ hdata]

/-- A concrete two-element JSON:API body with a side-loaded pool. -/
def wArrBody : Json :=
  Json.obj [("data", Json.arr [Json.obj [("id", Json.num 1)], Json.obj [("id", Json.num 2)]]),
    ("included", Json.arr [Json.str "side"])]

/-- Witness for C7: two elements yield exactly two rehydrated instances in
source order, each recording the `{ jsonApi, included }` argument it was
rehydrated with. -/
theorem C7_array_rehydration_witness :
    ((ApiDataFactory.request wMap "GET" "widget" none none wEnvServer
        (fun _ => TransportResult.success 200 "OK" wArrBody)).1).map (fun e => e.data) =
      Except.ok (ResponseData.list
        [[{ jsonApi := some (Json.obj [("id", Json.num 1)]), included := Json.arr [Json.str "side"] }],
         [{ jsonApi := some (Json.obj [("id", Json.num 2)]), included := Json.arr [Json.str "side"] }]]) := by
  have h := C7_array_rehydration wMap "GET" "widget" none none wEnvServer
    (fun _ => TransportResult.success 200 "OK" wArrBody) wCls 200 "OK" wArrBody
    [Json.obj [("id", Json.num 1)], Json.obj [("id", Json.num 2)]]
    rfl (fun _ => rfl) (by decide) (by decide) rfl
  exact h

/-- C8: for every successful (2xx, non-204) response, the returned envelope
carries a `nextPage` (resp. `prevPage`) closure exactly when the payload
declares a truthy `links.next` (resp. `links.prev`); the closure captures
the dispatch's registry key together with the literal link value, and its
invocation (`runPage`) is a full new GET dispatch with that same registry
key and `{ link: <literal link> }` as parameters, returning a new envelope.
When the payload declares no such link the corresponding closure is
absent. -/
theorem C8_pagination_closures {α : Type} (classMap : ClassMap α)
    (method classKey : String) (params body : Option Json) (env : Env)
    (transport : HttpRequest → TransportResult) (cls : ApiClass α)
    (status : Nat) (statusText : String) (jsonData : Json)
    (hreg : lookupClass classMap classKey = some cls)
    (hresp : ∀ r, transport r = TransportResult.success status statusText jsonData)
    (h2xx : 200 ≤ status ∧ status < 300) (h204 : status ≠ 204) :
    ∃ e : ApiResponse α,
      (ApiDataFactory.request classMap method classKey params body env
          transport).1 = Except.ok e ∧
      (∀ links nx : Json, jsonData.get? "links" = some links →
        links.get? "next" = some nx → nx.truthy = true →
        e.nextPage = some { classKey := classKey, link := nx }) ∧
      (optTruthy ((jsonData.get? "links").bind (fun l => l.get? "next")) = false →
        e.nextPage = none) ∧
      (∀ links pv : Json, jsonData.get? "links" = some links →
        links.get? "prev" = some pv → pv.truthy = true →
        e.prevPage = some { classKey := classKey, link := pv }) ∧
      (optTruthy ((jsonData.get? "links").bind (fun l => l.get? "prev")) = false →
        e.prevPage = none) ∧
      (∀ (p : PageCall) (env2 : Env) (transport2 : HttpRequest → TransportResult),
        runPage classMap p env2 transport2 =
          ApiDataFactory.request classMap "GET" p.classKey
            (some (Json.obj [("link", p.link)])) none env2 transport2) := by
  refine ⟨interpret cls classKey (TransportResult.success status statusText jsonData),
    ?_, ?_, ?_, ?_, ?_, ?_⟩
  · rw [request_eq_of_lookup hreg, hresp]
  · intro links nx hl hn ht
    rw [interpret_success_2xx cls classKey status statusText jsonData h2xx h204,
      dataStep_nextPage, linksStep_nextPage_some classKey jsonData links nx _ hl hn ht]
  · intro h
    rw [interpret_success_2xx cls classKey status statusText jsonData h2xx h204,
      dataStep_nextPage, linksStep_nextPage_none classKey jsonData _ h]
    rfl
  · intro links pv hl hn ht
    rw [interpret_success_2xx cls classKey status statusText jsonData h2xx h204,
      dataStep_prevPage, linksStep_prevPage_some classKey jsonData links pv _ hl hn ht]
  · intro h
    rw [interpret_success_2xx cls classKey status statusText jsonData h2xx h204,
      dataStep_prevPage, linksStep_prevPage_none classKey jsonData _ h]
    rfl
  · intro p env2 transport2
    rfl

/-- A concrete payload declaring `links.next = "/widgets?page=2"` and no
`links.prev`. -/
def wPageBody : Json :=
  Json.obj [("data", Json.arr []),
    ("links", Json.obj [("next", Json.str "/widgets?page=2")])]

/-- Witness for C8: the envelope for `wPageBody` carries a `nextPage`
closure for the literal link with the same registry key, no `prevPage`,
and invoking the closure is a new GET dispatch on that key and link. -/
theorem C8_pagination_closures_witness :
    ∃ e : ApiResponse (List RehydrateInput),
      (ApiDataFactory.request wMap "GET" "widget" none none wEnvServer
          (fun _ => TransportResult.success 200 "OK" wPageBody)).1 = Except.ok e ∧
      e.nextPage = some { classKey := "widget", link := Json.str "/widgets?page=2" } ∧
      e.prevPage = none ∧
      runPage wMap { classKey := "widget", link := Json.str "/widgets?page=2" }
          wEnvServer wFailTransport =
        ApiDataFactory.request wMap "GET" "widget"
          (some (Json.obj [("link", Json.str "/widgets?page=2")])) none wEnvServer
          wFailTransport := by
  obtain ⟨e, he, hnext, _, _, hpnone, hrun⟩ :=
    C8_pagination_closures wMap "GET" "widget" none none wEnvServer
      (fun _ => TransportResult.success 200 "OK" wPageBody) wCls 200 "OK" wPageBody
      rfl (fun _ => rfl) (by decide) (by decide)
  exact ⟨e, he, hnext _ _ rfl rfl rfl, hpnone rfl, hrun _ _ _⟩

end NextHelpers
